import Mathlib

/-!
Verification development for the MLB assistant routing agent.

Shallow embedding of the routing, player-resolution, stats-fetching and
grounded-answer logic from `app/nodes.py`, `app/logic.py` and
`app/utils/mlb_tools.py`.  External collaborators (the classifier LLM, the
MLB HTTP API, the grounded-generation provider, the citation helper from the
vendor SDK, the regex engine) are modelled as explicit inputs; everything
the repository's own code computes is embedded as executable Lean functions.
-/

namespace MLBAgent

/-- A parsed JSON value, as produced by a successful `json.loads` call.
`null` corresponds to Python `None` after parsing. -/
inductive JsonValue where
  | null : JsonValue
  | bool : Bool → JsonValue
  | num : Int → JsonValue
  | str : String → JsonValue
  | arr : List JsonValue → JsonValue
  | obj : List (String × JsonValue) → JsonValue

/-- First value bound to key `k` in a JSON object's field list
(Python `dict` lookup; key present at most once in parsed JSON). -/
def jlookup (kvs : List (String × JsonValue)) (k : String) : Option JsonValue :=
  match kvs with
  | [] => none
  | (k', v) :: rest => if k' = k then some v else jlookup rest k

/-- Python truthiness of a parsed JSON value: `None`, `False`, `0`, `""`,
`[]` and the empty dict are falsy, everything else is truthy. -/
def jsonTruthy : JsonValue → Bool
  | .null => false
  | .bool b => b
  | .num n => n != 0
  | .str s => s != ""
  | .arr xs => !xs.isEmpty
  | .obj kvs => !kvs.isEmpty

/-- `v.get k` in Python: `some (lookup result)` when `v` is a dict,
`none` when the attribute access raises `AttributeError`. -/
def pyDictGet (v : JsonValue) (k : String) : Option (Option JsonValue) :=
  match v with
  | .obj kvs => some (jlookup kvs k)
  | _ => none

/-- Python `str()` of a scalar JSON value, as interpolated by an f-string.
Containers only occur in inputs no claim exercises; they are rendered
with a fixed marker. -/
def pyStrJ : JsonValue → String
  | .null => "None"
  | .bool b => if b then "True" else "False"
  | .num n => toString n
  | .str s => s
  | .arr _ => "[...]"
  | .obj _ => "\x7b...\x7d"

/-- Is this JSON value exactly the string `s`? -/
def jsonIsStr (v : JsonValue) (s : String) : Bool :=
  match v with
  | .str t => t == s
  | _ => false

/-- ASCII lowering of one character, as Python's `str.lower` does on the
ASCII inputs the agent handles. -/
def lowerChar (c : Char) : Char :=
  if 65 ≤ c.toNat ∧ c.toNat ≤ 90 then Char.ofNat (c.toNat + 32) else c

/-- Python `s.lower()` (ASCII fragment). -/
def pyLower (s : String) : String := ⟨s.data.map lowerChar⟩

/-- Python `s.strip()`: drop whitespace from both ends. -/
def pyStrip (s : String) : String :=
  ⟨((s.data.dropWhile Char.isWhitespace).reverse.dropWhile
      Char.isWhitespace).reverse⟩

/-- Characterwise list-prefix test used to implement Python's `in` on strings. -/
def listPre : List Char → List Char → Bool
  | [], _ => true
  | _ :: _, [] => false
  | a :: as, b :: bs => a == b && listPre as bs

/-- Does `n` occur as a contiguous run inside `h`? -/
def listOccurs (n : List Char) : List Char → Bool
  | [] => n.isEmpty
  | c :: t => listPre n (c :: t) || listOccurs n t

/-- Python's `needle in hay` on strings. -/
def pyIn (needle hay : String) : Bool :=
  listOccurs needle.toList hay.toList

/-- One record of the `players` list built by `search_player`:
`{"id": ..., "full_name": ..., "team": ...}`.  `full_name` is
`person.get("fullName")`, which may be Python `None`. -/
structure PlayerRecord where
  id : Int
  full_name : Option String
  deriving DecidableEq

/-- `str(p.get("full_name", ""))` for a record built by `search_player`:
the key is always present, so a `None` value prints as `"None"`. -/
def full_name_str (p : PlayerRecord) : String :=
  match p.full_name with
  | some s => s
  | none => "None"

/-- Exact-loop predicate of the resolver:
`str(p.get("full_name", "")).lower().strip() == target`. -/
def exactMatchPred (target : String) (p : PlayerRecord) : Bool :=
  pyStrip (pyLower (full_name_str p)) == target

/-- Substring-loop predicate of the resolver:
`target in str(p.get("full_name", "")).lower()`. -/
def subMatchPred (target : String) (p : PlayerRecord) : Bool :=
  pyIn target (pyLower (full_name_str p))

/-- `find_player_id` from `app/logic.py`, with the upstream `search_player`
result's `players` list passed explicitly.  Selection heuristic from the
source: exact case-insensitive match, then substring match, then the
first result; `None` when the list is empty. -/
def find_player_id (player_name : String) (players : List PlayerRecord) :
    Option Int :=
  match players with
  | [] => none
  | p0 :: _ =>
    let target := pyStrip (pyLower player_name)
    match players.find? (exactMatchPred target) with
    | some p => some p.id
    | none =>
      match players.find? (subMatchPred target) with
      | some p => some p.id
      | none => some p0.id

example : find_player_id "aaron judge"
    [⟨1, some "Aaron Judgeson"⟩, ⟨2, some "Aaron Judge"⟩] = some 2 := by decide

example : find_player_id "xyz" [⟨7, some "Somebody"⟩] = some 7 := by decide

example : find_player_id "x" [] = none := by decide

/-- The fields of the state dict returned by `route_query_node`. -/
structure RouteResult where
  route : String
  extracted_name : Option JsonValue
  extracted_team : Option JsonValue

/-- `entities.get(key)` normalised the way Python sees it downstream:
a JSON `null` value and an absent key both read back as `None`. -/
def pyNoneNorm : Option JsonValue → Option JsonValue
  | some .null => none
  | o => o

/-- The `try` block of `route_query_node` in `app/nodes.py`, acting on the
classifier's output: `none` as input models `json.loads` raising on
non-JSON text (or the inference call itself raising); `none` as output
models an exception escaping the block (`AttributeError` from `.get` on a
non-dict).  Mirrors the source ordering: read `route` and `entities`,
extract `name`/`team`, then validate `route`. -/
def routeQueryTry : Option JsonValue → Option RouteResult
  | none => none
  | some data =>
    match data with
    | .obj kvs =>
      let routeV : JsonValue := (jlookup kvs "route").getD (.str "HELLO")
      let entV : JsonValue := (jlookup kvs "entities").getD (.obj [])
      let nameRes : Option (Option JsonValue) :=
        if jsonTruthy entV then pyDictGet entV "name" else some none
      match nameRes with
      | none => none
      | some name? =>
        let teamRes : Option (Option JsonValue) :=
          if jsonTruthy entV then pyDictGet entV "team" else some none
        match teamRes with
        | none => none
        | some team? =>
          if jsonIsStr routeV "PLAYER_STATS" || jsonIsStr routeV "DOCUMENT_QA"
          then
            some ⟨pyStrJ routeV, pyNoneNorm name?, pyNoneNorm team?⟩
          else
            some ⟨"HELLO", none, none⟩
    | _ => none

/-- `route_query_node` from `app/nodes.py`: the `except` branch defaults the
route to `"DOCUMENT_QA"` with both entities cleared. -/
def route_query_node (classifierOut : Option JsonValue) : RouteResult :=
  (routeQueryTry classifierOut).getD ⟨"DOCUMENT_QA", none, none⟩

/-- `decide_route` from `app/nodes.py`: the conditional-edge guard; takes
`state.get("route", "HELLO")` and coerces anything outside the closed set
to `"HELLO"`. -/
def decide_route (stateRoute : Option String) : String :=
  let route := stateRoute.getD "HELLO"
  if route = "PLAYER_STATS" ∨ route = "DOCUMENT_QA" ∨ route = "HELLO" then
    route
  else
    "HELLO"

example : (route_query_node none).route = "DOCUMENT_QA" := by decide

example :
    (route_query_node (some (.obj [("entities",
      .obj [("name", .str "Aaron Judge"), ("team", .null)])]))).route
      = "HELLO" := by decide

example :
    (route_query_node (some (.obj [("route", .str "PLAYER_STATS_PATH"),
      ("entities", .obj [("name", .str "Aaron Judge"),
        ("team", .str "Yankees")])]))).route = "HELLO" := by decide

example :
    route_query_node (some (.obj [("route", .str "PLAYER_STATS"),
      ("entities", .obj [("name", .str "Aaron Judge"), ("team", .null)])]))
      = ⟨"PLAYER_STATS", some (.str "Aaron Judge"), none⟩ := by
  simp [route_query_node, routeQueryTry, jlookup, jsonTruthy, pyDictGet,
    jsonIsStr, pyStrJ, pyNoneNorm]

example : decide_route (some "DOCUMENT_QA") = "DOCUMENT_QA" := by decide

example : decide_route (some "GARBAGE") = "HELLO" := by decide

example : decide_route none = "HELLO" := by decide

/-- One entry of a stat group's `splits` list; only its first element's
`"stat"` dict is read by `get_player_stats`. -/
structure Split where
  stat : List (String × JsonValue)

/-- One entry of `player["stats"]` in the hydrated people response. -/
structure StatGroup where
  splits : List Split

/-- One entry of the `"people"` list in the upstream response. -/
structure Person where
  fullName : Option String
  stats : List StatGroup

/-- The upstream response seen by `get_player_stats`: either the error dict
produced by `_make_api_call` on any transport failure, or the parsed body
with its `"people"` list. -/
structure StatsApiResponse where
  err : Option String
  people : List Person

/-- The `"hitting_season"` dict that `get_player_stats` builds from the
first split of a stat group, with the source's per-field defaults. -/
structure HittingSeason where
  avg : JsonValue
  ops : JsonValue
  home_runs : JsonValue
  rbi : JsonValue

/-- Build the `"hitting_season"` entry from a split's `"stat"` dict:
`stats.get("avg", ".000")`, `stats.get("ops", ".000")`,
`stats.get("homeRuns", 0)`, `stats.get("rbi", 0)`. -/
def hittingFromSplit (sp : Split) : HittingSeason where
  avg := (jlookup sp.stat "avg").getD (.str ".000")
  ops := (jlookup sp.stat "ops").getD (.str ".000")
  home_runs := (jlookup sp.stat "homeRuns").getD (.num 0)
  rbi := (jlookup sp.stat "rbi").getD (.num 0)

/-- Return value of `get_player_stats`: either an error dict, or the result
dict with `player_id`, `full_name` and a `stats` mapping that holds a
`hitting_season` entry only when some stat group had a non-empty `splits`
list. -/
inductive StatsFetchResult where
  | error : String → StatsFetchResult
  | record : Int → String → Option HittingSeason → StatsFetchResult

/-- `get_player_stats` from `app/utils/mlb_tools.py`.  The loop over
`player.get("stats", [])` skips groups with empty splits and overwrites
`result["stats"]["hitting_season"]` for each remaining group, so the last
group with a non-empty splits list wins. -/
def get_player_stats (player_id : Int) (resp : StatsApiResponse) :
    StatsFetchResult :=
  match resp.err with
  | some e => .error e
  | none =>
    match resp.people with
    | [] => .error "Player not found"
    | person :: _ =>
      let hs := person.stats.foldl
        (fun acc g =>
          match g.splits with
          | [] => acc
          | sp :: _ => some (hittingFromSplit sp))
        none
      .record player_id (person.fullName.getD "Unknown") hs

/-- The `"hitting_season"` entry of a fetch result's `stats` mapping,
`none` when the mapping is empty or the result is an error dict. -/
def fetchedHitting : StatsFetchResult → Option HittingSeason
  | .error _ => none
  | .record _ _ hs => hs

/-- Is this fetch result the error dict? -/
def isErrorResult : StatsFetchResult → Bool
  | .error _ => true
  | .record _ _ _ => false

example :
    fetchedHitting (get_player_stats 1 ⟨none, [⟨some "Test", [⟨[]⟩]⟩]⟩)
      = none := rfl

example :
    isErrorResult (get_player_stats 1 ⟨none, []⟩) = true := by decide

/-- Grounding support entries read off the candidate's metadata; the retry
logic never inspects their internals. -/
structure GroundingSupport where
  segment : String

/-- Grounding chunk entries; the citation helper consumes them. -/
structure GroundingChunk where
  uri : String
  title : String

/-- `candidate.grounding_metadata`. -/
structure GroundingMetadata where
  grounding_supports : List GroundingSupport
  grounding_chunks : List GroundingChunk

/-- One part of `candidate.content.parts`. -/
structure ContentPart where
  text : String

/-- `candidate.content`; `parts` may be absent/empty. -/
structure CandidateContent where
  parts : List ContentPart

/-- One candidate of the grounded-generation response. -/
structure Candidate where
  grounding_metadata : Option GroundingMetadata
  content : Option CandidateContent

/-- A grounded-generation response; `text` is `response.text`, which may be
Python `None`. -/
structure GroundedResponse where
  candidates : List Candidate
  text : Option String

/-- Return value of `rag.add_inline_citations_and_references` (vendor SDK,
external collaborator). -/
structure RagFormatted where
  cited_text : String
  final_bibliography : String

/-- The vendor citation helper, passed in as an explicit collaborator. -/
def AddCitations : Type :=
  String → List GroundingSupport → List GroundingChunk → RagFormatted

/-- Outcome of one `llm_native_grounding.generate_content` call, as the
upstream provider behaves on that attempt: a response, a
`ResourceExhausted` error, or an exception of any other class. -/
inductive AttemptOutcome where
  | ok : GroundedResponse → AttemptOutcome
  | rateLimited : AttemptOutcome
  | otherError : String → AttemptOutcome

/-- How `generate_grounded_answer` ends: a returned string, or an
exception propagating to the caller. -/
inductive GenOutcome where
  | returns : String → GenOutcome
  | raises : String → GenOutcome

/-- Observable run of the retry loop: its final outcome, the `time.sleep`
delays in seconds in order, and how many generate calls were made. -/
structure GenRun where
  outcome : GenOutcome
  sleeps : List Nat
  attemptsMade : Nat

/-- `response.text or fallback`: the fixed no-information fallback replaces
a `None` or empty `response.text`. -/
def respTextOr (r : GroundedResponse) : String :=
  match r.text with
  | none => "I could not find any information on that topic."
  | some t =>
    if t = "" then "I could not find any information on that topic." else t

/-- The body of the `try` block of `generate_grounded_answer` in
`app/logic.py` on a non-raising response: the chain of early returns on
missing candidates / metadata / supports / content parts, then citation
formatting with the `**Sources:**` section appended only when the
bibliography is non-empty. -/
def successAnswer (addCit : AddCitations) (resp : GroundedResponse) :
    String :=
  match resp.candidates with
  | [] => respTextOr resp
  | c :: _ =>
    match c.grounding_metadata with
    | none => respTextOr resp
    | some md =>
      if md.grounding_supports.isEmpty then respTextOr resp
      else
        match c.content with
        | none => respTextOr resp
        | some ct =>
          match ct.parts with
          | [] => respTextOr resp
          | p :: _ =>
            let rr := addCit p.text md.grounding_supports md.grounding_chunks
            if rr.final_bibliography = "" then rr.cited_text
            else rr.cited_text ++ "\n\n**Sources:**\n" ++ rr.final_bibliography

/-- The `for attempt in range(max_retries)` loop of
`generate_grounded_answer`, indexed by the current attempt `i` with
`fuel` iterations left (`fuel = 3 - i` at the entry call).  On
`ResourceExhausted` at the last attempt the fixed busy message is
returned; otherwise the loop sleeps `base_delay * 2 ** attempt` seconds
and retries.  Any other exception escapes. -/
def genGo (addCit : AddCitations) (env : Nat → AttemptOutcome) :
    Nat → Nat → GenRun
  | _, 0 =>
    ⟨.returns "An unexpected error occurred after multiple retries.", [], 0⟩
  | i, fuel + 1 =>
    match env i with
    | .ok resp => ⟨.returns (successAnswer addCit resp), [], 1⟩
    | .otherError e => ⟨.raises e, [], 1⟩
    | .rateLimited =>
      if i + 1 = 3 then
        ⟨.returns
          "The service is currently busy. Please try again in a few moments.",
          [], 1⟩
      else
        let r := genGo addCit env (i + 1) fuel
        ⟨r.outcome, 5 * 2 ^ i :: r.sleeps, r.attemptsMade + 1⟩

/-- `generate_grounded_answer` from `app/logic.py`, with
`max_retries = 3` and `base_delay = 5`. -/
def generate_grounded_answer (addCit : AddCitations)
    (env : Nat → AttemptOutcome) : GenRun :=
  genGo addCit env 0 3

/-- The `"hitting_season"` dict visible to the answer composer:
`(stats or ...).get("stats", ...).get("hitting_season", ...)` with empty-dict
defaults, so `none` both when the whole stats value is `None` and when the
fetch result carries no `hitting_season` entry. -/
def statsOptHitting : Option StatsFetchResult → Option HittingSeason
  | none => none
  | some r => fetchedHitting r

/-- The context-injected prompt of `generate_player_stats_answer` /
`chat_player`, with the hitting values interpolated by the f-string. -/
def statsPrompt (h : HittingSeason) (query : String) : String :=
  "You are an expert MLB analyst. Here is the player\x27s season hitting data:\n"
    ++ "AVG: " ++ pyStrJ h.avg ++ "\n"
    ++ "HR: " ++ pyStrJ h.home_runs ++ "\n"
    ++ "OPS: " ++ pyStrJ h.ops ++ "\n"
    ++ "RBI: " ++ pyStrJ h.rbi ++ "\n\n"
    ++ "Based on this data, answer the user\x27s question.\n"
    ++ "Question: " ++ query ++ "\nAnswer:"

/-- `generate_player_stats_answer` from `app/logic.py`, with the language
model passed as an explicit collaborator returning the response content. -/
def generate_player_stats_answer (llm : String → String) (query : String)
    (stats : Option StatsFetchResult) : String :=
  match statsOptHitting stats with
  | some h => llm (statsPrompt h query)
  | none => llm query

/-- The fixed capability message of `hello_node` in `app/nodes.py`. -/
def helloMessage : String :=
  "I\x27m an MLB assistant agent with two main capabilities:\n\n"
    ++ "1. **Player Statistics**: I can help you find statistics, "
    ++ "performance data, and biographical information about specific MLB "
    ++ "players. For example: \x27Tell me about Aaron Judge\x27 or \x27What "
    ++ "are Shohei Ohtani\x27s stats?\x27\n\n"
    ++ "2. **Document Q&A**: I can answer questions by consulting a "
    ++ "knowledge base of documents including policies, rules, guides, and "
    ++ "explanations. For example: \x27What is the policy on team travel?\x27 "
    ++ "or \x27Explain how the draft works.\x27\n\n"
    ++ "I\x27m sorry, but I wasn\x27t able to process your query. Please try "
    ++ "rephrasing your question or ask about a specific player or topic "
    ++ "from my knowledge base."

/-- `hello_node` from `app/nodes.py`: appends exactly the fixed capability
message. -/
def hello_node : List String := [helloMessage]

/-- `chat_player` from `app/nodes.py`: builds the same context-injected
prompt as the composer in `app/logic.py` and appends the model's single
response message. -/
def chat_player (llm : String → String) (query : String)
    (stats : Option StatsFetchResult) : List String :=
  match statsOptHitting stats with
  | some h => [llm (statsPrompt h query)]
  | none => [llm query]

/-- The `try` body of `generate_rag_answer` in `app/nodes.py` on a
non-raising response.  Unlike `generate_grounded_answer` it indexes
`candidates[0]` and `content.parts[0]` without guards, so an empty
candidate list, a missing content or an empty parts list raises. -/
def ragSuccess (addCit : AddCitations) (resp : GroundedResponse) :
    Except String String :=
  match resp.candidates with
  | [] => .error "IndexError"
  | c :: _ =>
    match c.grounding_metadata with
    | none => .ok (respTextOr resp)
    | some md =>
      match c.content with
      | none => .error "AttributeError"
      | some ct =>
        match ct.parts with
        | [] => .error "IndexError"
        | p :: _ =>
          let rr := addCit p.text md.grounding_supports md.grounding_chunks
          .ok (if rr.final_bibliography = "" then rr.cited_text
            else rr.cited_text ++ "\n\n**Sources:**\n" ++ rr.final_bibliography)

/-- The retry loop of `generate_rag_answer` in `app/nodes.py`; same
`ResourceExhausted`-only retry policy as `generate_grounded_answer`. -/
def ragGo (addCit : AddCitations) (env : Nat → AttemptOutcome) :
    Nat → Nat → Except String String
  | _, 0 => .ok "An unexpected error occurred after multiple retries."
  | i, fuel + 1 =>
    match env i with
    | .ok resp => ragSuccess addCit resp
    | .otherError e => .error e
    | .rateLimited =>
      if i + 1 = 3 then
        .ok "The service is currently busy. Please try again in a few moments."
      else ragGo addCit env (i + 1) fuel

/-- `generate_rag_answer` from `app/nodes.py`: the single message content
it appends, or the exception that escapes it. -/
def generate_rag_answer (addCit : AddCitations)
    (env : Nat → AttemptOutcome) : Except String String :=
  ragGo addCit env 0 3

/-- `state.get("extracted_name") or None`: keep only truthy values. -/
def truthyOpt : Option JsonValue → Option JsonValue
  | none => none
  | some v => if jsonTruthy v then some v else none

/-- Name selection at the top of `player_search_node`: the truthy extracted
name, else the regex heuristic's match (external regex engine, passed as
an input), else the raw query text. -/
def pySearchName (extracted : Option JsonValue) (regexName : Option String)
    (q : String) : JsonValue :=
  match truthyOpt extracted with
  | some v => v
  | none => .str (regexName.getD q)

/-- `player_search_node` from `app/nodes.py`: same tie-break as
`find_player_id`, but the empty-list check precedes `name.lower()`, and a
truthy non-string extracted name makes `name.lower()` raise. -/
def player_search_node (nameV : JsonValue) (players : List PlayerRecord) :
    Except String (Option Int) :=
  match players with
  | [] => .ok none
  | p0 :: _ =>
    match nameV with
    | .str name =>
      let nlc := pyStrip (pyLower name)
      match players.find? (exactMatchPred nlc) with
      | some p => .ok (some p.id)
      | none =>
        match players.find? (subMatchPred nlc) with
        | some p => .ok (some p.id)
        | none => .ok (some p0.id)
    | _ => .error "AttributeError"

/-- `player_stats_node` from `app/nodes.py`: a falsy `player_id` (missing
or zero) short-circuits to a `None` stats value without an upstream call. -/
def player_stats_node (pid : Option Int) (resp : StatsApiResponse) :
    Option StatsFetchResult :=
  match pid with
  | none => none
  | some p => if p = 0 then none else some (get_player_stats p resp)

/-- All external behavior one request can observe: the classifier output,
the regex heuristic's match, the directory search result, the stats
endpoint response, the chat model, and the grounded-generation provider. -/
structure PipelineEnv where
  classifierOut : Option JsonValue
  regexName : Option String
  players : List PlayerRecord
  statsResp : StatsApiResponse
  llmChat : String → String
  groundedEnv : Nat → AttemptOutcome
  addCit : AddCitations

/-- Modelled from the spec: the orchestration wiring of the routed variant
(§4.6 `START → CLASSIFY → PLAYER_SEARCH → PLAYER_STATS → PLAYER_ANSWER |
DOCUMENT_ANSWER | HELLO → END`) is absent from `src/` — only the node
implementations in `app/nodes.py` are present — so the graph is assembled
here per the spec, with every node function embedded from the source:
classify via `route_query_node`, guard via `decide_route`, and the three
terminal paths.  The result is the list of assistant messages appended,
or the exception that escapes the pipeline. -/
def pipeline (env : PipelineEnv) (query : String) :
    Except String (List String) :=
  let rq := route_query_node env.classifierOut
  let route := decide_route (some rq.route)
  if route = "PLAYER_STATS" then
    let nameV := pySearchName rq.extracted_name env.regexName query
    match player_search_node nameV env.players with
    | .error e => .error e
    | .ok pid =>
      let stats := player_stats_node pid env.statsResp
      .ok (chat_player env.llmChat query stats)
  else if route = "DOCUMENT_QA" then
    (generate_rag_answer env.addCit env.groundedEnv).map (fun s => [s])
  else
    .ok hello_node

/-! ### Helper lemmas -/

theorem find?_exists_of_mem {α : Type} (l : List α) (p : α → Bool) (x : α)
    (hx : x ∈ l) (hpx : p x = true) : ∃ r, l.find? p = some r := by
  cases hf : l.find? p with
  | some r => exact ⟨r, rfl⟩
  | none =>
    have := List.find?_eq_none.mp hf x hx
    simp [hpx] at this

theorem foldl_hitting_all_empty (l : List StatGroup)
    (acc : Option HittingSeason) (h : ∀ g ∈ l, g.splits = []) :
    l.foldl
      (fun acc g =>
        match g.splits with
        | [] => acc
        | sp :: _ => some (hittingFromSplit sp))
      acc = acc := by
  induction l generalizing acc with
  | nil => rfl
  | cons g gs ih =>
    have hg := h g (by simp)
    rw [List.foldl_cons]
    simp only [hg]
    exact ih acc (fun g' hg' => h g' (by simp [hg']))

theorem listPre_self_append (n t : List Char) : listPre n (n ++ t) = true := by
  induction n with
  | nil => rfl
  | cons c cs ih => simp [listPre, ih]

theorem listOccurs_of_listPre (n h : List Char) (hp : listPre n h = true) :
    listOccurs n h = true := by
  cases h with
  | nil =>
    cases n with
    | nil => rfl
    | cons c cs => simp [listPre] at hp
  | cons c t => simp [listOccurs, hp]

theorem listOccurs_mid (n pre suf : List Char) :
    listOccurs n (pre ++ (n ++ suf)) = true := by
  induction pre with
  | nil => simpa using listOccurs_of_listPre _ _ (listPre_self_append n suf)
  | cons c cs ih => simp [listOccurs, ih]

theorem str_data_append (s t : String) : (s ++ t).data = s.data ++ t.data := rfl

theorem pyIn_mid (mid pre suf : String) :
    pyIn mid (pre ++ (mid ++ suf)) = true := by
  simp only [pyIn, String.toList, str_data_append]
  exact listOccurs_mid _ _ _

theorem str_append_assoc (a b c : String) : a ++ b ++ c = a ++ (b ++ c) :=
  String.ext (by simp [str_data_append, List.append_assoc])

/-! ### Claim theorems -/

/-- C4: whenever some record in a non-empty upstream result matches the
candidate name exactly (case-insensitively, after trimming), resolution
returns the identifier of an exactly matching record, regardless of list
order and of earlier substring-only matches. -/
theorem c4_exact_match_priority (name : String) (players : List PlayerRecord)
    (h : ∃ p ∈ players, exactMatchPred (pyStrip (pyLower name)) p = true) :
    ∃ p ∈ players, exactMatchPred (pyStrip (pyLower name)) p = true ∧
      find_player_id name players = some p.id := by
  obtain ⟨q, hq, hqp⟩ := h
  obtain ⟨r, hr⟩ :=
    find?_exists_of_mem players (exactMatchPred (pyStrip (pyLower name))) q hq hqp
  refine ⟨r, List.mem_of_find?_eq_some hr, List.find?_some hr, ?_⟩
  cases players with
  | nil => cases hq
  | cons p0 rest => simp [find_player_id, hr]

/-- C4 witness: an exact match at the end of the list beats a substring
match at the head. -/
theorem c4_witness :
    ∃ p ∈ [(⟨1, some "Aaron Judgeson"⟩ : PlayerRecord), ⟨2, some "Aaron Judge"⟩],
      exactMatchPred (pyStrip (pyLower "Aaron Judge")) p = true ∧
      find_player_id "Aaron Judge"
        [⟨1, some "Aaron Judgeson"⟩, ⟨2, some "Aaron Judge"⟩] = some p.id :=
  c4_exact_match_priority "Aaron Judge"
    [⟨1, some "Aaron Judgeson"⟩, ⟨2, some "Aaron Judge"⟩]
    ⟨⟨2, some "Aaron Judge"⟩, by decide, by decide⟩

/-- C10: on a non-empty upstream result the resolver never returns
`None` — it returns the identifier of some record in the list, and when
neither an exact nor a substring match exists it falls back to the first
record; the `None` branch is reachable only on an empty list. -/
theorem c10_nonempty_always_resolves (name : String)
    (players : List PlayerRecord) :
    (find_player_id name players = none ↔ players = []) ∧
    ∀ p0 rest, players = p0 :: rest →
      (∃ p ∈ players, find_player_id name players = some p.id) ∧
      (players.find? (exactMatchPred (pyStrip (pyLower name))) = none →
        players.find? (subMatchPred (pyStrip (pyLower name))) = none →
        find_player_id name players = some p0.id) := by
  cases players with
  | nil =>
    exact ⟨by simp [find_player_id], fun p0 rest he => by cases he⟩
  | cons q0 qrest =>
    have hmain :
        ∃ p ∈ q0 :: qrest, find_player_id name (q0 :: qrest) = some p.id := by
      cases hf : (q0 :: qrest).find? (exactMatchPred (pyStrip (pyLower name))) with
      | some r =>
        exact ⟨r, List.mem_of_find?_eq_some hf, by simp [find_player_id, hf]⟩
      | none =>
        cases hs : (q0 :: qrest).find? (subMatchPred (pyStrip (pyLower name))) with
        | some r =>
          exact ⟨r, List.mem_of_find?_eq_some hs, by simp [find_player_id, hf, hs]⟩
        | none =>
          exact ⟨q0, by simp, by simp [find_player_id, hf, hs]⟩
    constructor
    · constructor
      · intro h
        obtain ⟨p, _, hp⟩ := hmain
        rw [h] at hp
        cases hp
      · intro h
        cases h
    · intro p0 rest he
      rw [List.cons.injEq] at he
      obtain ⟨rfl, rfl⟩ := he
      exact ⟨hmain, fun hf hs => by simp [find_player_id, hf, hs]⟩

/-- C10 witness: with no exact or substring match, the first record is
chosen, never `None`. -/
theorem c10_witness :
    ∃ p ∈ [(⟨7, some "Somebody Else"⟩ : PlayerRecord), ⟨9, some "Another Person"⟩],
      find_player_id "Zz Qq"
        [⟨7, some "Somebody Else"⟩, ⟨9, some "Another Person"⟩] = some p.id :=
  ((c10_nonempty_always_resolves "Zz Qq"
      [⟨7, some "Somebody Else"⟩, ⟨9, some "Another Person"⟩]).2
    ⟨7, some "Somebody Else"⟩ [⟨9, some "Another Person"⟩] rfl).1

/-- C5: two rate-limit failures followed by a success yield the successful
formatted answer with exactly the two backoff delays of 5 and 10 seconds
between the three attempts. -/
theorem c5_two_rate_limits_then_success (addCit : AddCitations)
    (env : Nat → AttemptOutcome) (resp : GroundedResponse)
    (h0 : env 0 = .rateLimited) (h1 : env 1 = .rateLimited)
    (h2 : env 2 = .ok resp) :
    generate_grounded_answer addCit env =
      ⟨.returns (successAnswer addCit resp), [5, 10], 3⟩ := by
  simp [generate_grounded_answer, genGo, h0, h1, h2]

/-- C5 witness at a concrete environment. -/
theorem c5_witness :
    generate_grounded_answer (fun t _ _ => ⟨t, ""⟩)
      (fun n => if n < 2 then .rateLimited else .ok ⟨[], some "All good."⟩) =
      ⟨.returns (successAnswer (fun t _ _ => ⟨t, ""⟩) ⟨[], some "All good."⟩),
        [5, 10], 3⟩ :=
  c5_two_rate_limits_then_success _ _ _ rfl rfl rfl

/-- C6: three consecutive rate-limit errors yield exactly the fixed busy
message and no exception escapes the generator. -/
theorem c6_rate_limit_exhaustion (addCit : AddCitations)
    (env : Nat → AttemptOutcome) (h0 : env 0 = .rateLimited)
    (h1 : env 1 = .rateLimited) (h2 : env 2 = .rateLimited) :
    (generate_grounded_answer addCit env).outcome =
      .returns
        "The service is currently busy. Please try again in a few moments." ∧
    ∀ e, (generate_grounded_answer addCit env).outcome ≠ .raises e := by
  constructor
  · simp [generate_grounded_answer, genGo, h0, h1, h2]
  · intro e
    simp [generate_grounded_answer, genGo, h0, h1, h2]

/-- C6 witness at a concrete environment. -/
theorem c6_witness :
    (generate_grounded_answer (fun t _ _ => ⟨t, ""⟩)
        (fun _ => .rateLimited)).outcome =
      .returns
        "The service is currently busy. Please try again in a few moments." ∧
    ∀ e, (generate_grounded_answer (fun t _ _ => ⟨t, ""⟩)
        (fun _ => .rateLimited)).outcome ≠ .raises e :=
  c6_rate_limit_exhaustion _ _ rfl rfl rfl

/-- C7: an exception of any non-rate-limit class at attempt `k` is not
retried: the loop stops after `k + 1` generate calls, sleeps only for the
rate-limit failures before `k`, and the exception propagates. -/
theorem c7_other_exception_propagates (addCit : AddCitations)
    (env : Nat → AttemptOutcome) (k : Nat) (e : String) (hk : k < 3)
    (hbefore : ∀ j, j < k → env j = .rateLimited)
    (hke : env k = .otherError e) :
    (generate_grounded_answer addCit env).outcome = .raises e ∧
    (generate_grounded_answer addCit env).attemptsMade = k + 1 ∧
    (generate_grounded_answer addCit env).sleeps =
      (List.range k).map (fun i => 5 * 2 ^ i) := by
  have h3 : k = 0 ∨ k = 1 ∨ k = 2 := by omega
  rcases h3 with rfl | rfl | rfl
  · simp [generate_grounded_answer, genGo, hke]
  · have e0 := hbefore 0 (by norm_num)
    simp [generate_grounded_answer, genGo, e0, hke, List.range_succ]
  · have e0 := hbefore 0 (by norm_num)
    have e1 := hbefore 1 (by norm_num)
    simp [generate_grounded_answer, genGo, e0, e1, hke, List.range_succ]

/-- C7 witness: a `TypeError` on the second attempt after one rate-limit
failure propagates after exactly two calls and one 5-second sleep. -/
theorem c7_witness :
    (generate_grounded_answer (fun t _ _ => ⟨t, ""⟩)
        (fun n => if n = 0 then .rateLimited else .otherError "TypeError")).outcome
      = .raises "TypeError" ∧
    (generate_grounded_answer (fun t _ _ => ⟨t, ""⟩)
        (fun n => if n = 0 then .rateLimited else .otherError "TypeError")).attemptsMade
      = 2 ∧
    (generate_grounded_answer (fun t _ _ => ⟨t, ""⟩)
        (fun n => if n = 0 then .rateLimited else .otherError "TypeError")).sleeps
      = (List.range 1).map (fun i => 5 * 2 ^ i) :=
  c7_other_exception_propagates _ _ 1 "TypeError" (by norm_num)
    (fun j hj => by interval_cases j; rfl) rfl

/-- C3 counterexample: with an upstream that raises a non-rate-limit
exception on every attempt, the grounded-answer generator raises to its
caller instead of returning text, refuting "never raises" for arbitrary
upstream behavior. -/
theorem c3_counterexample :
    (generate_grounded_answer (fun t _ _ => ⟨t, ""⟩)
        (fun _ => .otherError "ValueError")).outcome = .raises "ValueError" := rfl

/-- C3 amended: the generator always returns a text string — never
raises — provided every upstream failure is of the rate-limit
(resource-exhausted) class; other exception classes propagate. -/
theorem c3_never_raises_under_rate_limits (addCit : AddCitations)
    (env : Nat → AttemptOutcome)
    (h : ∀ n, env n = .rateLimited ∨ ∃ r, env n = .ok r) :
    ∃ s, (generate_grounded_answer addCit env).outcome = .returns s := by
  rcases h 0 with h0 | ⟨r0, h0⟩
  · rcases h 1 with h1 | ⟨r1, h1⟩
    · rcases h 2 with h2 | ⟨r2, h2⟩
      · exact
          ⟨"The service is currently busy. Please try again in a few moments.",
            by simp [generate_grounded_answer, genGo, h0, h1, h2]⟩
      · exact ⟨successAnswer addCit r2,
          by simp [generate_grounded_answer, genGo, h0, h1, h2]⟩
    · exact ⟨successAnswer addCit r1,
        by simp [generate_grounded_answer, genGo, h0, h1]⟩
  · exact ⟨successAnswer addCit r0,
      by simp [generate_grounded_answer, genGo, h0]⟩

/-- C3 witness: sustained rate-limiting still produces a returned string. -/
theorem c3_witness :
    ∃ s, (generate_grounded_answer (fun t _ _ => ⟨t, ""⟩)
        (fun _ => .rateLimited)).outcome = .returns s :=
  c3_never_raises_under_rate_limits _ _ (fun _ => Or.inl rfl)

/-- C2 counterexample: a person with a stat group whose splits list is
empty yields a non-error record whose stats mapping is empty — it carries
no `hitting_season` entry and hence no defaulted `avg`/`ops`/
`home_runs`/`rbi` fields, contrary to the claim's predicted defaults. -/
theorem c2_counterexample :
    isErrorResult (get_player_stats 1 ⟨none, [⟨some "Test", [⟨[]⟩]⟩]⟩) = false ∧
    fetchedHitting (get_player_stats 1 ⟨none, [⟨some "Test", [⟨[]⟩]⟩]⟩) = none ∧
    (none : Option HittingSeason) ≠
      some ⟨.str ".000", .str ".000", .num 0, .num 0⟩ :=
  ⟨rfl, rfl, fun h => Option.noConfusion h⟩

/-- C2 amended: with a person present and every stat group's splits list
empty, the fetcher returns a non-error record whose stats mapping is
empty (no `hitting_season` entry, so no numeric fields at all); the
documented per-field defaults `avg=".000"`, `ops=".000"`, `home_runs=0`,
`rbi=0` apply only when a split exists but its stat dict lacks the
corresponding key. -/
theorem c2_empty_splits_empty_stats (pid : Int) (resp : StatsApiResponse)
    (person : Person) (rest : List Person) (he : resp.err = none)
    (hp : resp.people = person :: rest)
    (hsp : ∀ g ∈ person.stats, g.splits = []) :
    get_player_stats pid resp =
      .record pid (person.fullName.getD "Unknown") none ∧
    ∀ sp : Split,
      (jlookup sp.stat "avg" = none → (hittingFromSplit sp).avg = .str ".000") ∧
      (jlookup sp.stat "ops" = none → (hittingFromSplit sp).ops = .str ".000") ∧
      (jlookup sp.stat "homeRuns" = none →
        (hittingFromSplit sp).home_runs = .num 0) ∧
      (jlookup sp.stat "rbi" = none → (hittingFromSplit sp).rbi = .num 0) := by
  constructor
  · simp only [get_player_stats, he, hp]
    rw [foldl_hitting_all_empty person.stats none hsp]
  · intro sp
    refine ⟨?_, ?_, ?_, ?_⟩ <;> intro hl <;> simp [hittingFromSplit, hl]

/-- C2 witness: a concrete splitless response produces the record with the
empty stats mapping. -/
theorem c2_witness :
    get_player_stats 5 ⟨none, [⟨some "Empty Guy", [⟨[]⟩]⟩]⟩ =
      .record 5 ((some "Empty Guy" : Option String).getD "Unknown") none :=
  (c2_empty_splits_empty_stats 5 ⟨none, [⟨some "Empty Guy", [⟨[]⟩]⟩]⟩
      ⟨some "Empty Guy", [⟨[]⟩]⟩ [] rfl rfl
      (by intro g hg; simp at hg; subst hg; rfl)).1

/-- C9: with non-empty hitting-season stats the composer invokes the model
on the context-injected prompt, which embeds AVG, HR, OPS and RBI as
labeled lines together with the original question; with stats absent or
empty it invokes the model on exactly the raw question. -/
theorem c9_composer_prompt (llm : String → String) (query : String)
    (stats : Option StatsFetchResult) :
    (∀ h : HittingSeason, statsOptHitting stats = some h →
      generate_player_stats_answer llm query stats = llm (statsPrompt h query) ∧
      pyIn ("AVG: " ++ pyStrJ h.avg ++ "\n") (statsPrompt h query) = true ∧
      pyIn ("HR: " ++ pyStrJ h.home_runs ++ "\n") (statsPrompt h query) = true ∧
      pyIn ("OPS: " ++ pyStrJ h.ops ++ "\n") (statsPrompt h query) = true ∧
      pyIn ("RBI: " ++ pyStrJ h.rbi ++ "\n") (statsPrompt h query) = true ∧
      pyIn query (statsPrompt h query) = true) ∧
    (statsOptHitting stats = none →
      generate_player_stats_answer llm query stats = llm query) := by
  constructor
  · intro h hh
    refine ⟨by simp [generate_player_stats_answer, hh], ?_, ?_, ?_, ?_, ?_⟩
    · have hrw : statsPrompt h query =
          "You are an expert MLB analyst. Here is the player\x27s season hitting data:\n"
            ++ (("AVG: " ++ pyStrJ h.avg ++ "\n")
              ++ ("HR: " ++ pyStrJ h.home_runs ++ "\n" ++ "OPS: "
                ++ pyStrJ h.ops ++ "\n" ++ "RBI: " ++ pyStrJ h.rbi ++ "\n\n"
                ++ "Based on this data, answer the user\x27s question.\n"
                ++ "Question: " ++ query ++ "\nAnswer:")) := by
        simp only [statsPrompt, str_append_assoc]
      rw [hrw]
      exact pyIn_mid _ _ _
    · have hrw : statsPrompt h query =
          ("You are an expert MLB analyst. Here is the player\x27s season hitting data:\n"
              ++ "AVG: " ++ pyStrJ h.avg ++ "\n")
            ++ (("HR: " ++ pyStrJ h.home_runs ++ "\n")
              ++ ("OPS: " ++ pyStrJ h.ops ++ "\n" ++ "RBI: " ++ pyStrJ h.rbi
                ++ "\n\n" ++ "Based on this data, answer the user\x27s question.\n"
                ++ "Question: " ++ query ++ "\nAnswer:")) := by
        simp only [statsPrompt, str_append_assoc]
      rw [hrw]
      exact pyIn_mid _ _ _
    · have hrw : statsPrompt h query =
          ("You are an expert MLB analyst. Here is the player\x27s season hitting data:\n"
              ++ "AVG: " ++ pyStrJ h.avg ++ "\n" ++ "HR: "
              ++ pyStrJ h.home_runs ++ "\n")
            ++ (("OPS: " ++ pyStrJ h.ops ++ "\n")
              ++ ("RBI: " ++ pyStrJ h.rbi ++ "\n\n"
                ++ "Based on this data, answer the user\x27s question.\n"
                ++ "Question: " ++ query ++ "\nAnswer:")) := by
        simp only [statsPrompt, str_append_assoc]
      rw [hrw]
      exact pyIn_mid _ _ _
    · have hrw : statsPrompt h query =
          ("You are an expert MLB analyst. Here is the player\x27s season hitting data:\n"
              ++ "AVG: " ++ pyStrJ h.avg ++ "\n" ++ "HR: "
              ++ pyStrJ h.home_runs ++ "\n" ++ "OPS: " ++ pyStrJ h.ops ++ "\n")
            ++ (("RBI: " ++ pyStrJ h.rbi ++ "\n")
              ++ ("\n" ++ "Based on this data, answer the user\x27s question.\n"
                ++ "Question: " ++ query ++ "\nAnswer:")) := by
        simp only [statsPrompt, str_append_assoc,
          show ("\n\n" : String) = "\n" ++ "\n" from rfl]
      rw [hrw]
      exact pyIn_mid _ _ _
    · have hrw : statsPrompt h query =
          ("You are an expert MLB analyst. Here is the player\x27s season hitting data:\n"
              ++ "AVG: " ++ pyStrJ h.avg ++ "\n" ++ "HR: "
              ++ pyStrJ h.home_runs ++ "\n" ++ "OPS: " ++ pyStrJ h.ops ++ "\n"
              ++ "RBI: " ++ pyStrJ h.rbi ++ "\n\n"
              ++ "Based on this data, answer the user\x27s question.\n"
              ++ "Question: ")
            ++ (query ++ "\nAnswer:") := by
        simp only [statsPrompt, str_append_assoc]
      rw [hrw]
      exact pyIn_mid _ _ _
  · intro hn
    simp [generate_player_stats_answer, hn]

/-- A concrete hitting-season record for the C9 witness. -/
def c9h : HittingSeason := ⟨.str ".310", .str "1.020", .num 58, .num 144⟩

/-- C9 witness: at a concrete stats record, the prompt embeds all four
labeled lines and the question. -/
theorem c9_witness :
    generate_player_stats_answer (fun s => s) "How is he hitting?"
        (some (.record 592450 "Aaron Judge" (some c9h))) =
      (fun s => s) (statsPrompt c9h "How is he hitting?") ∧
    pyIn ("AVG: " ++ pyStrJ c9h.avg ++ "\n")
      (statsPrompt c9h "How is he hitting?") = true ∧
    pyIn ("HR: " ++ pyStrJ c9h.home_runs ++ "\n")
      (statsPrompt c9h "How is he hitting?") = true ∧
    pyIn ("OPS: " ++ pyStrJ c9h.ops ++ "\n")
      (statsPrompt c9h "How is he hitting?") = true ∧
    pyIn ("RBI: " ++ pyStrJ c9h.rbi ++ "\n")
      (statsPrompt c9h "How is he hitting?") = true ∧
    pyIn "How is he hitting?" (statsPrompt c9h "How is he hitting?") = true :=
  (c9_composer_prompt (fun s => s) "How is he hitting?"
      (some (.record 592450 "Aaron Judge" (some c9h)))).1 c9h rfl

theorem routeQueryTry_closed (out : Option JsonValue) (r : RouteResult)
    (h : routeQueryTry out = some r) :
    r.route = "PLAYER_STATS" ∨ r.route = "DOCUMENT_QA" ∨ r.route = "HELLO" := by
  cases out with
  | none => simp [routeQueryTry] at h
  | some data =>
    cases data with
    | null => simp [routeQueryTry] at h
    | bool b => simp [routeQueryTry] at h
    | num n => simp [routeQueryTry] at h
    | str s => simp [routeQueryTry] at h
    | arr xs => simp [routeQueryTry] at h
    | obj kvs =>
      simp only [routeQueryTry] at h
      split at h
      · exact Option.noConfusion h
      · split at h
        · exact Option.noConfusion h
        · split at h
          · rename_i hcond
            rw [Option.some.injEq] at h
            subst h
            cases hV : (jlookup kvs "route").getD (.str "HELLO") with
            | str t =>
              rw [hV] at hcond
              simp only [jsonIsStr, Bool.or_eq_true, beq_iff_eq] at hcond
              rcases hcond with rfl | rfl
              · left; rfl
              · right; left; rfl
            | null => rw [hV] at hcond; simp [jsonIsStr] at hcond
            | bool b => rw [hV] at hcond; simp [jsonIsStr] at hcond
            | num n => rw [hV] at hcond; simp [jsonIsStr] at hcond
            | arr xs => rw [hV] at hcond; simp [jsonIsStr] at hcond
            | obj kvs2 => rw [hV] at hcond; simp [jsonIsStr] at hcond
          · rw [Option.some.injEq] at h
            subst h
            right; right; rfl

/-- C1 counterexample: non-JSON classifier output (a `json.loads` failure)
is routed to DOCUMENT_QA by the `except` branch, and the transition guard
keeps it there — the route is not HELLO. -/
theorem c1_counterexample :
    (route_query_node none).route = "DOCUMENT_QA" ∧
    decide_route (some (route_query_node none).route) ≠ "HELLO" := by
  exact ⟨rfl, by decide⟩

/-- C1 amended: the routing step is deterministic and lands in the closed
set, with the guard passing the value through unchanged; a JSON object
missing the `route` key, or carrying a route value outside
PLAYER_STATS/DOCUMENT_QA, yields HELLO — but non-JSON output (and any
output whose field access raises) yields DOCUMENT_QA, not HELLO. -/
theorem c1_malformed_output_routing (out : Option JsonValue) :
    ((route_query_node out).route = "PLAYER_STATS" ∨
      (route_query_node out).route = "DOCUMENT_QA" ∨
      (route_query_node out).route = "HELLO") ∧
    decide_route (some (route_query_node out).route) =
      (route_query_node out).route ∧
    (out = none → (route_query_node out).route = "DOCUMENT_QA") ∧
    (∀ kvs, out = some (.obj kvs) → (routeQueryTry out).isSome = true →
      jlookup kvs "route" = none →
      (route_query_node out).route = "HELLO") ∧
    (∀ kvs v, out = some (.obj kvs) → (routeQueryTry out).isSome = true →
      jlookup kvs "route" = some v → jsonIsStr v "PLAYER_STATS" = false →
      jsonIsStr v "DOCUMENT_QA" = false →
      (route_query_node out).route = "HELLO") := by
  have hclosed : (route_query_node out).route = "PLAYER_STATS" ∨
      (route_query_node out).route = "DOCUMENT_QA" ∨
      (route_query_node out).route = "HELLO" := by
    cases hq : routeQueryTry out with
    | none => right; left; simp [route_query_node, hq]
    | some r =>
      have hr := routeQueryTry_closed out r hq
      simpa [route_query_node, hq] using hr
  refine ⟨hclosed, ?_, ?_, ?_, ?_⟩
  · rcases hclosed with h | h | h <;> simp [decide_route, h]
  · intro he
    subst he
    rfl
  · intro kvs hout hsome hlook
    subst hout
    cases hq : routeQueryTry (some (.obj kvs)) with
    | none => rw [hq] at hsome; cases hsome
    | some r =>
      simp only [route_query_node, hq, Option.getD_some]
      simp only [routeQueryTry, hlook, Option.getD_none] at hq
      split at hq
      · exact Option.noConfusion hq
      · split at hq
        · exact Option.noConfusion hq
        · split at hq
          · rename_i hcond
            simp [jsonIsStr] at hcond
          · rw [Option.some.injEq] at hq
            subst hq
            rfl
  · intro kvs v hout hsome hlook hP hD
    subst hout
    cases hq : routeQueryTry (some (.obj kvs)) with
    | none => rw [hq] at hsome; cases hsome
    | some r =>
      simp only [route_query_node, hq, Option.getD_some]
      simp only [routeQueryTry, hlook, Option.getD_some] at hq
      split at hq
      · exact Option.noConfusion hq
      · split at hq
        · exact Option.noConfusion hq
        · split at hq
          · rename_i hcond
            rw [hP, hD] at hcond
            simp at hcond
          · rw [Option.some.injEq] at hq
            subst hq
            rfl

/-- C1 witness: a JSON object missing the `route` key, and one with a
route value outside the closed set, both land on HELLO. -/
theorem c1_witness :
    (route_query_node (some (.obj [("entities",
        .obj [("name", .str "Aaron Judge"), ("team", .null)])]))).route
      = "HELLO" ∧
    (route_query_node (some (.obj [("route", .str "PLAYER_STATS_PATH"),
        ("entities", .obj [])]))).route = "HELLO" :=
  ⟨(c1_malformed_output_routing _).2.2.2.1
      [("entities", .obj [("name", .str "Aaron Judge"), ("team", .null)])]
      rfl rfl rfl,
    (c1_malformed_output_routing _).2.2.2.2
      [("route", .str "PLAYER_STATS_PATH"), ("entities", .obj [])]
      (.str "PLAYER_STATS_PATH") rfl rfl rfl rfl rfl⟩

/-- C8: whenever the pipeline completes — whichever terminal path the
router takes (player answer, document answer, or hello fallback) — the
list of assistant messages appended to the conversation state has length
exactly one: never zero, never more. -/
theorem c8_exactly_one_message (env : PipelineEnv) (query : String)
    (msgs : List String) (h : pipeline env query = .ok msgs) :
    msgs.length = 1 := by
  simp only [pipeline] at h
  split at h
  · split at h
    · exact Except.noConfusion h
    · rw [Except.ok.injEq] at h
      subst h
      rename_i pid _
      cases hst : statsOptHitting
          (player_stats_node pid env.statsResp) with
      | none => simp [chat_player, hst]
      | some hh => simp [chat_player, hst]
  · split at h
    · cases hr : generate_rag_answer env.addCit env.groundedEnv with
      | error e =>
        rw [hr] at h
        exact Except.noConfusion h
      | ok s =>
        rw [hr] at h
        simp only [Except.map] at h
        rw [Except.ok.injEq] at h
        subst h
        rfl
    · rw [Except.ok.injEq] at h
      subst h
      rfl

/-- A concrete environment whose classifier returns a JSON object without
a `route` key, driving the request down the hello path. -/
def c8env : PipelineEnv :=
  ⟨some (.obj []), none, [], ⟨none, []⟩, fun _ => "answer",
    fun _ => .rateLimited, fun t _ _ => ⟨t, ""⟩⟩

/-- C8 witness: a completed hello-path request appends exactly one
message. -/
theorem c8_witness : (hello_node).length = 1 :=
  c8_exactly_one_message c8env "Hello there" hello_node rfl

end MLBAgent
